import Mathlib

/-
Shallow embedding of the express-typescript-basic-template repository.

Source files embedded:
  - src/src/index.ts          : the HTTP entry point (middleware pipeline,
                                the single route, the error handler, the port
                                computation and the listen call)
  - src/src/config/morgan.ts  : the access-log middleware configuration
                                (combined format, stream writing
                                logger.info on the trimmed message)

Conventions: JavaScript numbers appearing here are small integers, embedded
as Int; JavaScript strings are Lean String; the truthiness of the
logical-or operator is embedded explicitly (0 and the empty string are
falsy). Observable actions of the program (logger calls, sending a
response, console output, exiting the process) are reified as an Effect
type so that theorems can speak about what a request handling emits.
-/

/-- The ad-hoc error shape of index.ts: interface Error with a message
string and an optional numeric status. -/
structure ReqError where
  message : String
  status : Option Int
deriving DecidableEq

/-- An HTTP response as observable to the client: status code and body. -/
structure Response where
  status : Int
  body : String
deriving DecidableEq

/-- Observable actions emitted while handling one request. The logInfo and
logError constructors are the two channels of the winston logger; stdout is
console output; processExit would be a process termination (never emitted
by this program, present so that liveness of the listener is expressible). -/
inductive Effect where
  | logInfo (msg : String)
  | logError (msg : String)
  | stdout (msg : String)
  | sendResponse (r : Response)
  | processExit
deriving DecidableEq

/-- Whitespace predicate used by the JavaScript String.prototype.trim
(restricted to the ASCII whitespace characters, which are the only ones
occurring in the morgan output): space, tab, line feed, carriage return,
vertical tab, form feed. -/
def isWsChar (c : Char) : Bool :=
  c == ' ' || c == Char.ofNat 9 || c == Char.ofNat 10 ||
  c == Char.ofNat 13 || c == Char.ofNat 11 || c == Char.ofNat 12

/-- Trimming of a character list at both ends, as String.prototype.trim. -/
def jsTrimList (l : List Char) : List Char :=
  ((l.dropWhile isWsChar).reverse.dropWhile isWsChar).reverse

/-- Embedding of the JavaScript message.trim() call of morgan.ts. -/
def jsTrim (s : String) : String :=
  String.mk (jsTrimList s.data)

/-- Embedding of the stream write function of src/config/morgan.ts:
write message = logger.info (message.trim()). -/
def morganWrite (message : String) : Effect :=
  Effect.logInfo (jsTrim message)

/-- Model of the combined access-log format of the morgan library, as
configured by the combined-mode morgan call in src/config/morgan.ts: remote
address, identity fields, date, request line, status, content length,
referrer and user agent, followed by the newline morgan appends before
handing the line to the stream. -/
def combinedLine (remoteAddr remoteUser date method url httpVersion
    referrer userAgent : String) (res : Response) : String :=
  remoteAddr ++ " - " ++ remoteUser ++ " [" ++ date ++ "] \"" ++ method ++
  " " ++ url ++ " HTTP/" ++ httpVersion ++ "\" " ++ toString res.status ++
  " " ++ toString res.body.length ++ " \"" ++ referrer ++ "\" \"" ++
  userAgent ++ "\"" ++ "\n"

/-- An incoming HTTP request, with the fields the pipeline observes. The
raisesError field models whether the route handler processing of this
request raises an error (the error object it would raise), which express
then forwards to the terminal error-handling middleware. -/
structure Request where
  method : String
  url : String
  remoteAddr : String := "-"
  remoteUser : String := "-"
  date : String := "-"
  httpVersion : String := "1.1"
  referrer : String := "-"
  userAgent : String := "-"
  raisesError : Option ReqError := none

/-- The combined log line for a request and its response. -/
def combinedLineFor (req : Request) (res : Response) : String :=
  combinedLine req.remoteAddr req.remoteUser req.date req.method req.url
    req.httpVersion req.referrer req.userAgent res

/-- Embedding of the JavaScript expression err.status, with 500 as the
right operand of the logical-or: a present, non-zero status is returned,
while an absent status or the falsy number 0 yields 500. -/
def jsOrNum (x : Option Int) (d : Int) : Int :=
  match x with
  | some v => if v = 0 then d else v
  | none => d

/-- The response built by the error-handling middleware of index.ts:
res.status on err.status or-else 500, then sending the failure body. -/
def errorResponse (err : ReqError) : Response :=
  { status := jsOrNum err.status 500, body := "Something went wrong!" }

/-- The effects of the error-handling middleware of index.ts, in program
order: logger.error(err.message), then the response send. -/
def errorMiddleware (err : ReqError) : List Effect :=
  [Effect.logError err.message, Effect.sendResponse (errorResponse err)]

/-- The response of the root route handler of index.ts:
res.send of the hello string, with the express default status 200. -/
def helloResponse : Response :=
  { status := 200, body := "Hello World!" }

/-- Model of the express default handling of an unmatched route (the
finalhandler of the express library): a 404 response whose body names the
method and path. -/
def notFoundResponse (req : Request) : Response :=
  { status := 404, body := "Cannot " ++ req.method ++ " " ++ req.url }

/-- The registration stages of index.ts, one constructor per app.use or
route call. -/
inductive Stage where
  | expressJson
  | cors
  | helmet
  | morganAccessLog
  | route (method : String) (path : String)
  | errorHandler
deriving DecidableEq

/-- The pipeline of index.ts in registration order: express.json(),
cors(), helmet(), morganMiddleware, the GET / route, the error-handling
middleware. -/
def appStages : List Stage :=
  [Stage.expressJson, Stage.cors, Stage.helmet, Stage.morganAccessLog,
   Stage.route "GET" "/", Stage.errorHandler]

/-- Dispatch state while a request flows through the pipeline: the pending
forwarded error if any, the response once one has been sent, whether the
morgan middleware has armed its on-finish access logging, and the effects
emitted so far. -/
structure Ctx where
  err : Option ReqError
  res : Option Response
  accessLog : Bool
  effects : List Effect
deriving DecidableEq

/-- One pipeline stage applied to the dispatch state, following the
express dispatch semantics: once a response is sent no further stage runs;
while an error is pending, non-error middleware is skipped; the error
handler runs only when an error is pending. The three header middlewares
(json body parsing, cors, helmet) only mutate the request and response
headers, which are not observable in this model, and pass control on. -/
def runStage (req : Request) (c : Ctx) (s : Stage) : Ctx :=
  if c.res.isSome then c
  else
    match s with
    | Stage.expressJson => c
    | Stage.cors => c
    | Stage.helmet => c
    | Stage.morganAccessLog =>
        if c.err.isSome then c else { c with accessLog := true }
    | Stage.route m p =>
        if c.err.isSome then c
        else if req.method == m && req.url == p then
          match req.raisesError with
          | some e => { c with err := some e }
          | none =>
              { c with res := some helloResponse,
                       effects := c.effects ++ [Effect.sendResponse helloResponse] }
        else c
    | Stage.errorHandler =>
        match c.err with
        | some e =>
            { c with err := none, res := some (errorResponse e),
                     effects := c.effects ++ errorMiddleware e }
        | none => c

/-- Running a request through the registered pipeline of index.ts. -/
def dispatch (req : Request) : Ctx :=
  List.foldl (runStage req) (Ctx.mk none none false []) appStages

/-- The response the client receives for a request: the response produced
by the pipeline, or the express 404 default when no stage produced one. -/
def finalResponse (req : Request) : Response :=
  match (dispatch req).res with
  | some r => r
  | none => notFoundResponse req

/-- The full observable effect trace of handling one request: the pipeline
effects, the default 404 send when no stage responded, and, at response
finish, the single morgan access-log write configured in morgan.ts. -/
def handleRequest (req : Request) : List Effect :=
  let c := dispatch req
  (match c.res with
   | some _ => c.effects
   | none => c.effects ++ [Effect.sendResponse (notFoundResponse req)]) ++
  (if c.accessLog then [morganWrite (combinedLineFor req (finalResponse req))]
   else [])

/-- The messages a trace hands to the informational channel of the logger. -/
def infoMsgs (l : List Effect) : List String :=
  l.filterMap fun e =>
    match e with
    | Effect.logInfo m => some m
    | _ => none

/-- The messages a trace hands to the error channel of the logger. -/
def errorMsgs (l : List Effect) : List String :=
  l.filterMap fun e =>
    match e with
    | Effect.logError m => some m
    | _ => none

/-- The messages a trace writes to standard output. -/
def stdoutMsgs (l : List Effect) : List String :=
  l.filterMap fun e =>
    match e with
    | Effect.stdout m => some m
    | _ => none

/-- The bodies of the responses a trace sends. -/
def sentBodies (l : List Effect) : List String :=
  l.filterMap fun e =>
    match e with
    | Effect.sendResponse r => some r.body
    | _ => none

/-- Whether an effect is a process termination. -/
def isExit (e : Effect) : Bool :=
  match e with
  | Effect.processExit => true
  | _ => false

/-- The value of the port constant of index.ts: process.env.PORT or-else
3000. A set, non-empty PORT keeps its raw string value (JavaScript
logical-or on strings); an unset or empty PORT yields the number 3000. -/
inductive PortVal where
  | str (s : String)
  | num (n : Nat)
deriving DecidableEq

/-- Embedding of: const port = process.env.PORT or-else 3000. -/
def port (envPORT : Option String) : PortVal :=
  match envPORT with
  | some s => if s = "" then PortVal.num 3000 else PortVal.str s
  | none => PortVal.num 3000

/-- Interpolation of the port into the startup message, as the template
literal of index.ts does. -/
def portToString (p : PortVal) : String :=
  match p with
  | PortVal.str s => s
  | PortVal.num n => toString n

/-- One step of the startup sequence of the program in index.ts: a middleware
or route registration, the listener bind, or the console confirmation. -/
inductive StartupStep where
  | register (s : Stage)
  | listen (p : PortVal)
  | consoleLog (m : String)
deriving DecidableEq

/-- The startup sequence of index.ts in program order: all registrations,
then app.listen on the computed port, whose callback prints the startup
confirmation message. -/
def startup (envPORT : Option String) : List StartupStep :=
  appStages.map StartupStep.register ++
  [StartupStep.listen (port envPORT),
   StartupStep.consoleLog ("Server is running at http://localhost:" ++
     portToString (port envPORT))]

/-- The server as a state machine: either listening on a port or stopped. -/
inductive ServerState where
  | listening (p : PortVal)
  | stopped
deriving DecidableEq

/-- The server state after a trace of effects: a process termination
effect stops the server, anything else leaves it as it was. -/
def applyEffects (st : ServerState) (effs : List Effect) : ServerState :=
  if effs.any isExit then ServerState.stopped else st

/-- One request arriving at the server: a listening server handles it and
transitions according to the emitted effects; a stopped server does
nothing. -/
def serverStep (st : ServerState) (req : Request) : ServerState × List Effect :=
  match st with
  | ServerState.listening _ => (applyEffects st (handleRequest req), handleRequest req)
  | ServerState.stopped => (ServerState.stopped, [])

/-- The server state after a sequence of requests. -/
def serverRun (st : ServerState) (reqs : List Request) : ServerState :=
  reqs.foldl (fun s r => (serverStep s r).1) st

/-! Helper lemmas: the dispatch of the six-stage pipeline, by cases on the
request. -/

/-- Dispatch of a GET / request whose handling raises no error. -/
theorem dispatch_hello (req : Request)
    (h : (req.method == "GET" && req.url == "/") = true)
    (h2 : req.raisesError = none) :
    dispatch req =
      Ctx.mk none (some helloResponse) true [Effect.sendResponse helloResponse] := by
  simp [dispatch, appStages, runStage, h, h2]

/-- Dispatch of a GET / request whose handling raises an error. -/
theorem dispatch_error (req : Request) (e : ReqError)
    (h : (req.method == "GET" && req.url == "/") = true)
    (h2 : req.raisesError = some e) :
    dispatch req =
      Ctx.mk none (some (errorResponse e)) true (errorMiddleware e) := by
  simp [dispatch, appStages, runStage, h, h2, errorMiddleware]

/-- Dispatch of a request that matches no route. -/
theorem dispatch_nomatch (req : Request)
    (h : (req.method == "GET" && req.url == "/") = false) :
    dispatch req = Ctx.mk none none true [] := by
  simp [dispatch, appStages, runStage, h]

/-- Full trace of a GET / request whose handling raises no error. -/
theorem handleRequest_hello (req : Request)
    (h : (req.method == "GET" && req.url == "/") = true)
    (h2 : req.raisesError = none) :
    finalResponse req = helloResponse ∧
    handleRequest req =
      [Effect.sendResponse helloResponse,
       morganWrite (combinedLineFor req helloResponse)] := by
  have hd := dispatch_hello req h h2
  have hf : finalResponse req = helloResponse := by simp [finalResponse, hd]
  exact ⟨hf, by simp [handleRequest, hd, hf]⟩

/-- Full trace of a GET / request whose handling raises an error. -/
theorem handleRequest_error (req : Request) (e : ReqError)
    (h : (req.method == "GET" && req.url == "/") = true)
    (h2 : req.raisesError = some e) :
    finalResponse req = errorResponse e ∧
    handleRequest req =
      [Effect.logError e.message,
       Effect.sendResponse (errorResponse e),
       morganWrite (combinedLineFor req (errorResponse e))] := by
  have hd := dispatch_error req e h h2
  have hf : finalResponse req = errorResponse e := by simp [finalResponse, hd]
  exact ⟨hf, by simp [handleRequest, hd, hf, errorMiddleware]⟩

/-- Full trace of a request matching no route. -/
theorem handleRequest_nomatch (req : Request)
    (h : (req.method == "GET" && req.url == "/") = false) :
    finalResponse req = notFoundResponse req ∧
    handleRequest req =
      [Effect.sendResponse (notFoundResponse req),
       morganWrite (combinedLineFor req (notFoundResponse req))] := by
  have hd := dispatch_nomatch req h
  have hf : finalResponse req = notFoundResponse req := by simp [finalResponse, hd]
  exact ⟨hf, by simp [handleRequest, hd, hf]⟩

/-- No request trace contains a process termination effect. -/
theorem handleRequest_no_exit (req : Request) :
    (handleRequest req).any isExit = false := by
  by_cases h : (req.method == "GET" && req.url == "/") = true
  · cases h2 : req.raisesError with
    | none =>
        rw [(handleRequest_hello req h h2).2]
        simp [isExit, morganWrite]
    | some e =>
        rw [(handleRequest_error req e h h2).2]
        simp [isExit, morganWrite]
  · rw [(handleRequest_nomatch req (by simpa using h)).2]
    simp [isExit, morganWrite]

/-- Trimming leaves no leading or trailing whitespace: the head of a
dropWhile never satisfies the dropped predicate. -/
theorem dropWhile_head_not (p : Char → Bool) (l : List Char) (c : Char)
    (h : (l.dropWhile p).head? = some c) : p c = false := by
  induction l with
  | nil => simp [List.dropWhile] at h
  | cons a t ih =>
      rw [List.dropWhile_cons] at h
      by_cases hp : p a = true
      · rw [if_pos hp] at h
        exact ih h
      · rw [if_neg hp] at h
        simp only [List.head?_cons, Option.some.injEq] at h
        subst h
        simpa using hp

/-- The last character of a trimmed string is never whitespace. -/
theorem jsTrim_last_not_ws (s : String) (c : Char)
    (h : (jsTrim s).data.getLast? = some c) : isWsChar c = false := by
  have h2 : (jsTrimList s.data).getLast? = some c := h
  rw [jsTrimList, List.getLast?_reverse] at h2
  exact dropWhile_head_not isWsChar _ c h2

/-- C1 counterexample: an error object that does carry a status field,
with the value 0, is answered with status 500, not with the value of the field, because the JavaScript logical-or treats 0 as falsy. -/
theorem errorStatus_zero_counterexample :
    (errorResponse (ReqError.mk "boom" (some 0))).status = 500 ∧
    ¬ (errorResponse (ReqError.mk "boom" (some 0))).status = 0 := by
  constructor
  · rfl
  · intro h
    simp [errorResponse, jsOrNum] at h

/-- C1 (amended): the response status of the error-handling middleware equals
the status field of the error whenever that field is present and non-zero;
when the field is absent (or is the falsy value 0) the status is 500. -/
theorem errorStatus_amended (e : ReqError) :
    (∀ s : Int, e.status = some s → ¬ s = 0 → (errorResponse e).status = s) ∧
    (e.status = none → (errorResponse e).status = 500) ∧
    (e.status = some 0 → (errorResponse e).status = 500) := by
  refine ⟨?_, ?_, ?_⟩
  · intro s hs hnz
    simp [errorResponse, jsOrNum, hs, hnz]
  · intro hn
    simp [errorResponse, jsOrNum, hn]
  · intro hz
    simp [errorResponse, jsOrNum, hz]

/-- Witness for C1 at status 418, at an absent status, and at status 0. -/
theorem errorStatus_amended_witness :
    (errorResponse (ReqError.mk "m" (some 418))).status = 418 ∧
    (errorResponse (ReqError.mk "m" none)).status = 500 ∧
    (errorResponse (ReqError.mk "m" (some 0))).status = 500 :=
  ⟨(errorStatus_amended (ReqError.mk "m" (some 418))).1 418 rfl (by decide),
   (errorStatus_amended (ReqError.mk "m" none)).2.1 rfl,
   (errorStatus_amended (ReqError.mk "m" (some 0))).2.2 rfl⟩

/-- C2: a GET request to the root path is answered with status 200 and
body Hello World, and the handler performs no further processing: its
whole trace is that one send, followed only by the per-cycle access log. -/
theorem getRoot_hello (req : Request) (h1 : req.method = "GET")
    (h2 : req.url = "/") (h3 : req.raisesError = none) :
    finalResponse req = Response.mk 200 "Hello World!" ∧
    handleRequest req =
      [Effect.sendResponse (Response.mk 200 "Hello World!"),
       morganWrite (combinedLineFor req (Response.mk 200 "Hello World!"))] := by
  have hb : (req.method == "GET" && req.url == "/") = true := by
    simp [h1, h2]
  have := handleRequest_hello req hb h3
  simpa [helloResponse] using this

/-- Witness for C2 at a concrete GET / request. -/
theorem getRoot_hello_witness :
    finalResponse { method := "GET", url := "/" } =
      Response.mk 200 "Hello World!" :=
  (getRoot_hello { method := "GET", url := "/" } rfl rfl rfl).1

/-- C3: a request whose handling raises an error is answered with the
body Something went wrong, and the error message is recorded on the
error-level log channel exactly once. -/
theorem errorRequest_body_and_log (req : Request) (e : ReqError)
    (h1 : req.method = "GET") (h2 : req.url = "/")
    (h3 : req.raisesError = some e) :
    sentBodies (handleRequest req) = ["Something went wrong!"] ∧
    errorMsgs (handleRequest req) = [e.message] := by
  have hb : (req.method == "GET" && req.url == "/") = true := by
    simp [h1, h2]
  rw [(handleRequest_error req e hb h3).2]
  constructor
  · simp [sentBodies, morganWrite, errorResponse]
  · simp [errorMsgs, morganWrite]

/-- Witness for C3 at a concrete erroring request. -/
theorem errorRequest_body_and_log_witness :
    sentBodies (handleRequest { method := "GET", url := "/",
                                raisesError := some (ReqError.mk "boom" (some 418)) }) =
      ["Something went wrong!"] ∧
    errorMsgs (handleRequest { method := "GET", url := "/",
                               raisesError := some (ReqError.mk "boom" (some 418)) }) =
      ["boom"] :=
  errorRequest_body_and_log _ (ReqError.mk "boom" (some 418)) rfl rfl rfl

/-- C4: the listening port is the PORT environment value when set and
non-empty and 3000 otherwise, and the startup sequence registers all
middleware and the route before binding the listener and printing the
startup confirmation. -/
theorem startup_port_and_order (env : Option String) :
    (∀ s : String, env = some s → ¬ s = "" → port env = PortVal.str s) ∧
    ((env = none ∨ env = some "") → port env = PortVal.num 3000) ∧
    startup env = appStages.map StartupStep.register ++
      [StartupStep.listen (port env),
       StartupStep.consoleLog ("Server is running at http://localhost:" ++
         portToString (port env))] := by
  refine ⟨?_, ?_, rfl⟩
  · intro s hs hne
    simp [port, hs, hne]
  · intro hd
    cases hd with
    | inl h => simp [port, h]
    | inr h => simp [port, h]

/-- Witness for C4 at PORT set to 8080 and at PORT unset. -/
theorem startup_port_and_order_witness :
    port (some "8080") = PortVal.str "8080" ∧ port none = PortVal.num 3000 :=
  ⟨(startup_port_and_order (some "8080")).1 "8080" rfl (by simp),
   (startup_port_and_order none).2.1 (Or.inl rfl)⟩

/-- C5: the pipeline registers json body parsing first, then cors, then
helmet, then the morgan access logging, and only then the route and the
terminal error handler, which comes last. -/
theorem appStages_registration_order :
    appStages.indexOf Stage.expressJson < appStages.indexOf Stage.cors ∧
    appStages.indexOf Stage.cors < appStages.indexOf Stage.helmet ∧
    appStages.indexOf Stage.helmet < appStages.indexOf Stage.morganAccessLog ∧
    appStages.indexOf Stage.morganAccessLog <
      appStages.indexOf (Stage.route "GET" "/") ∧
    appStages.indexOf (Stage.route "GET" "/") <
      appStages.indexOf Stage.errorHandler ∧
    appStages.getLast? = some Stage.errorHandler := by
  decide

/-- C6: every request, whether it succeeds, errors, or matches no route,
hands exactly one message to the informational log channel, the trimmed
combined-format line for its response, and writes nothing to standard
output. -/
theorem accessLog_once_per_request (req : Request) :
    infoMsgs (handleRequest req) =
      [jsTrim (combinedLineFor req (finalResponse req))] ∧
    stdoutMsgs (handleRequest req) = [] := by
  by_cases h : (req.method == "GET" && req.url == "/") = true
  · cases h2 : req.raisesError with
    | none =>
        have hh := handleRequest_hello req h h2
        rw [hh.2, hh.1]
        constructor
        · simp [infoMsgs, morganWrite]
        · simp [stdoutMsgs, morganWrite]
    | some e =>
        have hh := handleRequest_error req e h h2
        rw [hh.2, hh.1]
        constructor
        · simp [infoMsgs, morganWrite]
        · simp [stdoutMsgs, morganWrite]
  · have hh := handleRequest_nomatch req (by simpa using h)
    rw [hh.2, hh.1]
    constructor
    · simp [infoMsgs, morganWrite]
    · simp [stdoutMsgs, morganWrite]

/-- C7: no request error stops the listener: after any sequence of
requests, erroring or not, the server is still listening. -/
theorem server_survives_requests (p : PortVal) (reqs : List Request) :
    serverRun (ServerState.listening p) reqs = ServerState.listening p := by
  induction reqs with
  | nil => rfl
  | cons r t ih =>
      have hs : (serverStep (ServerState.listening p) r).1 =
          ServerState.listening p := by
        simp [serverStep, applyEffects, handleRequest_no_exit r]
      rw [show serverRun (ServerState.listening p) (r :: t) =
            serverRun (serverStep (ServerState.listening p) r).1 t from rfl, hs]
      exact ih

/-- C8: the response body of the error-handling middleware is the one constant
string for any two errors, so the error message never flows into the
client-visible body; the message reaches only the error-level log. -/
theorem errorBody_constant (e1 e2 : ReqError) :
    (errorResponse e1).body = "Something went wrong!" ∧
    (errorResponse e1).body = (errorResponse e2).body ∧
    errorMsgs (errorMiddleware e1) = [e1.message] := by
  refine ⟨rfl, rfl, ?_⟩
  simp [errorMsgs, errorMiddleware]

/-- C9: the morgan stream handler forwards exactly the trimmed message to
the informational channel, and the trimmed line never ends with the line
feed that morgan appends. -/
theorem morganWrite_trims_newline (msg : String) :
    morganWrite msg = Effect.logInfo (jsTrim msg) ∧
    ((jsTrim msg).data.getLast? == some (Char.ofNat 10)) = false := by
  refine ⟨rfl, ?_⟩
  cases hl : (jsTrim msg).data.getLast? with
  | none => rfl
  | some c =>
      have hws := jsTrim_last_not_ws msg c hl
      have hc : ¬ c = Char.ofNat 10 := by
        intro he
        rw [he] at hws
        simp [isWsChar] at hws
      simp [hc]

/-- C10: a non-empty PORT environment value is used verbatim as the
listening port, with no parsing or validation, and is never replaced by
the default 3000. -/
theorem port_passthrough (s : String) (h : ¬ s = "") :
    port (some s) = PortVal.str s ∧ ¬ port (some s) = PortVal.num 3000 := by
  constructor
  · simp [port, h]
  · simp [port, h]

/-- Witness for C10 at the non-numeric value abc. -/
theorem port_passthrough_witness : port (some "abc") = PortVal.str "abc" :=
  (port_passthrough "abc" (by simp)).1
